import Mathlib

/-!
Verification development for the HouseSage/backend link-shortening service.

This file shallowly embeds the link resolution and short-code allocation
core of the repository:

* `app/core/link_utils.py`   — `LinkProcessor` (variant dispatch, password,
  expiry, tracking helpers);
* `app/core/short_code.py`   — alphabet, validation, generation;
* `app/core/config.py`       — the relevant settings constants;
* `app/crud/crud_link.py`    — lookup and deletion;
* `app/crud/crud_event.py`   — `create_event`;
* `app/api/redirect.py`      — the `redirect_link` endpoint.

Python dictionaries with a fixed key set are embedded as structures with
`Option` fields (a `none` field is an absent key); `dict.get(k, d)` becomes
`Option.getD`.  Wall-clock instants (`time.time()`, `datetime.utcnow()`,
`expires_at`) are embedded as integers or naturals counting seconds; the
ISO-8601 parsing performed by `LinkProcessor.is_expired` is elided, the
parsed instant being represented directly.  Randomness
(`random.choices`) is embedded as an explicit choice function supplied by
the caller.
-/

deriving instance DecidableEq for Except

namespace HouseSageBackend

/-! ## Python string membership (`needle in haystack`) -/

/-- `startsWithChars pat s` is true when `pat` is an initial segment of `s`
(character-wise). -/
def startsWithChars : List Char → List Char → Bool
  | [], _ => true
  | _ :: _, [] => false
  | a :: as, b :: bs => a == b && startsWithChars as bs

/-- `hasSubstr pat s` : `pat` occurs contiguously somewhere in `s`. -/
def hasSubstr (pat : List Char) : List Char → Bool
  | [] => pat.isEmpty
  | b :: bs => startsWithChars pat (b :: bs) || hasSubstr pat bs

/-- Python's `pat in s` on strings: contiguous-substring containment. -/
def pyIn (pat s : String) : Bool :=
  hasSubstr pat.data s.data

/-- Python's `str.lower()` (character-wise lowercasing). -/
def pyLower (s : String) : String :=
  String.mk (s.data.map Char.toLower)

/-! ## `app/core/link_utils.py` — the link payload and `LinkProcessor` -/

/-- The JSON `link_data` payload of a link, restricted to the keys the
resolution core reads (`app/core/link_utils.py`, `app/api/redirect.py`).
Each field is `none` when the key is absent from the dict.
`expires_at` is the parsed expiry instant in seconds. -/
structure LinkData where
  type : Option String := none
  url : Option String := none
  urls : Option (List String) := none
  rules : Option (List (String × String)) := none
  password : Option String := none
  expires_at : Option Int := none
  track : Option Bool := none
  title : Option String := none
deriving Repr, DecidableEq

/-- The `request_info` dict passed to `LinkProcessor.process_link_redirect`
(only the `user_agent` key is read). -/
structure RequestInfo where
  user_agent : Option String := none
deriving Repr, DecidableEq

/-- `LinkProcessor.is_password_protected`:
`bool(link_data.get('password'))` — an absent key and the empty string are
both falsy. -/
def is_password_protected (link_data : LinkData) : Bool :=
  match link_data.password with
  | none => false
  | some p => !p.isEmpty

/-- `LinkProcessor.verify_password`:
`link_data.get('password') == password` (`None == password` is false for a
string argument). -/
def verify_password (link_data : LinkData) (password : String) : Bool :=
  match link_data.password with
  | none => false
  | some p => p == password

/-- `LinkProcessor.is_expired`: absent (falsy) `expires_at` is not expired;
otherwise compare `datetime.utcnow() > expiry_date`.  The instant parsed
from the stored ISO string is represented directly as `Int` seconds. -/
def is_expired (now : Int) (link_data : LinkData) : Bool :=
  match link_data.expires_at with
  | none => false
  | some expiry_date => now > expiry_date

/-- `LinkProcessor.should_track`:
`link_data.get('track', True)` — tracking defaults to enabled. -/
def should_track (link_data : LinkData) : Bool :=
  link_data.track.getD true

/-- `LinkProcessor._process_simple_link`: `link_data.get('url', '')`. -/
def _process_simple_link (link_data : LinkData) : String :=
  link_data.url.getD ""

/-- `LinkProcessor._process_round_robin_link`:
`urls = link_data.get('urls', [])`; raise `ValueError` when empty,
otherwise return `urls[int(time.time()) % len(urls)]`.  `now` is
`int(time.time())` (non-negative seconds, so `int` = floor). -/
def _process_round_robin_link (now : Nat) (link_data : LinkData) :
    Except String String :=
  match link_data.urls.getD [] with
  | [] => .error "Round robin link must have at least one URL"
  | u :: us =>
      .ok ((u :: us).get ⟨now % (u :: us).length,
        Nat.mod_lt now (Nat.succ_pos us.length)⟩)

/-- `LinkProcessor._process_complex_link`:
`rules = link_data.get('rules', {})`; without `request_info` return
`rules.get('else', '')`; otherwise lowercase the user agent and match
`android`, then `iphone`/`ipad`, falling back to `rules.get('else', '')`. -/
def _process_complex_link (link_data : LinkData)
    (request_info : Option RequestInfo) : Except String String :=
  let rules := link_data.rules.getD []
  match request_info with
  | none => .ok ((List.lookup "else" rules).getD "")
  | some ri =>
      let user_agent := pyLower (ri.user_agent.getD "")
      if pyIn "android" user_agent && (List.lookup "android" rules).isSome then
        .ok ((List.lookup "android" rules).getD "")
      else if (pyIn "iphone" user_agent || pyIn "ipad" user_agent)
          && (List.lookup "iphone" rules).isSome then
        .ok ((List.lookup "iphone" rules).getD "")
      else
        .ok ((List.lookup "else" rules).getD "")

/-- `LinkProcessor.process_link_redirect`:
`link_type = link_data.get('type', 'simple')`, dispatch on it, raising
`ValueError` on an unknown tag. -/
def process_link_redirect (now : Nat) (link_data : LinkData)
    (request_info : Option RequestInfo := none) : Except String String :=
  let link_type := link_data.type.getD "simple"
  if link_type == "simple" then
    .ok (_process_simple_link link_data)
  else if link_type == "round_robin" then
    _process_round_robin_link now link_data
  else if link_type == "complex" then
    _process_complex_link link_data request_info
  else
    .error ("Unknown link type: " ++ link_type)

/-! ## `app/core/config.py` — settings used by the core -/

/-- `settings.SHORT_CODE_LENGTH`. -/
def SHORT_CODE_LENGTH : Nat := 6

/-- `settings.MAX_SHORT_CODE_LENGTH`. -/
def MAX_SHORT_CODE_LENGTH : Nat := 20

/-! ## `app/core/short_code.py` — alphabet, validation, generation -/

/-- `ALPHABET = string.ascii_letters + string.digits`. -/
def ALPHABET : String :=
  "abcdefghijklmnopqrstuvwxyzABCDEFGHIJKLMNOPQRSTUVWXYZ0123456789"

/-- `AMBIGUOUS_CHARS = "0O1lI"`. -/
def AMBIGUOUS_CHARS : String := "0O1lI"

/-- `SAFE_ALPHABET = ''.join(c for c in ALPHABET if c not in AMBIGUOUS_CHARS)`. -/
def SAFE_ALPHABET : String :=
  String.mk (ALPHABET.data.filter (fun c => !(AMBIGUOUS_CHARS.data.contains c)))

/-- `generate_short_code(length)`:
`''.join(random.choices(SAFE_ALPHABET, k=length))`.  The random draws are
embedded as the explicit choice function `pick`, each draw being an index
into `SAFE_ALPHABET`. -/
def generate_short_code (pick : Nat → Fin SAFE_ALPHABET.data.length)
    (length : Nat) : String :=
  String.mk ((List.range length).map (fun i => SAFE_ALPHABET.data.get (pick i)))

/-- `is_valid_short_code(code)`: false for the empty (falsy) string, false
when longer than `settings.MAX_SHORT_CODE_LENGTH`, otherwise
`all(c in SAFE_ALPHABET for c in code)`. -/
def is_valid_short_code (code : String) : Bool :=
  if code.isEmpty then false
  else if code.length > MAX_SHORT_CODE_LENGTH then false
  else code.data.all (fun c => SAFE_ALPHABET.data.contains c)

/-- The functions defined by the module `app/crud/crud_link.py`
(transcribed from its `def` statements).  Note that
`get_link_by_short_code` is *not* among them. -/
def crud_link_module_functions : List String :=
  ["get_link", "get_link_by_domain_and_short_code", "get_links_by_space",
   "get_links_by_domain", "get_all_links", "get_links_filtered",
   "create_link", "update_link", "delete_link"]

/-- Python attribute resolution on the module `app.crud.crud_link`:
succeeds exactly for the names the module defines, raising
`AttributeError` otherwise. -/
def crud_link_getattr (name : String) : Except String Unit :=
  if crud_link_module_functions.contains name then .ok ()
  else .error ("AttributeError: module 'app.crud.crud_link' has no attribute '"
    ++ name ++ "'")

/-- `generate_unique_short_code(db, max_attempts, length)`: a loop of
`max_attempts` iterations; each iteration generates a candidate with
`generate_short_code` and then evaluates
`crud_link.get_link_by_short_code(db, code)` — whose first step is
attribute resolution of `get_link_by_short_code` on `app.crud.crud_link`.
`gen i` is the candidate produced at iteration `i`.  When the loop body
never runs the function returns `None`.  (The attribute does not resolve,
so the collision-check call itself cannot be modelled; the unreachable
success branch conservatively continues the loop.) -/
def generate_unique_short_code (gen : Nat → String) (max_attempts : Nat) :
    Except String (Option String) :=
  go 0 max_attempts
where
  go (i : Nat) : Nat → Except String (Option String)
    | 0 => .ok none
    | fuel + 1 =>
        let _code := gen i
        match crud_link_getattr "get_link_by_short_code" with
        | .error e => .error e
        | .ok () => go (i + 1) fuel

/-! ## `app/models/models.py` — the records the resolution core touches

`Link.domain_id` is embedded as the string the redirect endpoint's
`domain` query parameter is compared against
(`crud_link.get_link_by_domain_and_short_code` filters
`models.Link.domain_id == domain_id` on that string).  The `Event`
relationship on `Link` (`models.py` line 125) and the `Event.link_id`
foreign key configure no delete cascade. -/

/-- The `event_data` context blob built by `redirect_link`
(`app/api/redirect.py` lines 131-136); `timestamp` is
`datetime.utcnow()` in seconds. -/
structure EventData where
  ip : Option String := none
  user_agent : Option String := none
  referrer : Option String := none
  timestamp : Int := 0
deriving Repr, DecidableEq

/-- A row of the `events` table (the columns the resolution core writes). -/
structure Event where
  link_id : Nat
  type : String
  event_data : EventData
deriving Repr, DecidableEq

/-- A row of the `links` table (the columns the resolution core reads). -/
structure Link where
  id : Nat
  domain_id : String
  short_code : String
  is_active : Bool
  link_data : LinkData
deriving Repr, DecidableEq

/-- The stored state the resolution core touches: the `links` and
`events` tables. -/
structure DB where
  links : List Link
  events : List Event
deriving Repr, DecidableEq

/-! ## `app/crud/crud_link.py` — lookup and deletion -/

/-- `crud_link.get_link_by_domain_and_short_code`: first link matching
`short_code == short_code AND domain_id == domain_id AND is_active == True`. -/
def get_link_by_domain_and_short_code (db : DB)
    (short_code domain_id : String) : Option Link :=
  db.links.find? (fun l =>
    l.short_code == short_code && l.domain_id == domain_id && l.is_active)

/-- `crud_link.get_link`: first link with the given primary key. -/
def get_link (db : DB) (link_id : Nat) : Option Link :=
  db.links.find? (fun l => l.id == link_id)

/-- `crud_link.delete_link`: look the link up by id; when found,
`db.delete(db_link)` followed by `db.commit()`.  `models.py` configures
no delete cascade on `Link.events` (line 125) and no `ondelete` on the
`Event.link_id` foreign key (line 155), so at flush the ORM loads the
dependent events and nulls their `link_id`; that column is
`nullable=False`, so the flush raises `IntegrityError` whenever a
dependent event exists — the transaction aborts and no row changes.
Only a link without dependent events is actually removed (and the
deleted link returned); a missing id returns the unchanged state and
`None`. -/
def delete_link (db : DB) (link_id : Nat) :
    Except String (DB × Option Link) :=
  match get_link db link_id with
  | none => .ok (db, none)
  | some db_link =>
      if db.events.any (fun e => e.link_id == db_link.id) then
        .error "IntegrityError: NOT NULL constraint failed: events.link_id"
      else
        .ok ({ db with links := db.links.filter (fun l => !(l.id == link_id)) },
          some db_link)

/-! ## `app/crud/crud_event.py` — `create_event` -/

/-- The dict literal `{"link_id": ..., "type": ..., "event_data": ...}`
that `redirect_link` passes to `crud_event.create_event`
(`app/api/redirect.py` lines 138-145). -/
structure EventDict where
  link_id : Nat
  type : String
  event_data : EventData
deriving Repr, DecidableEq

/-- Python attribute access on a `dict` instance: a dict exposes its keys
through subscription, not through attributes, so `event.link_id` (and any
other attribute of these names) raises `AttributeError` regardless of the
dict's keys. -/
def dictGetattr (α : Type) (_ : EventDict) (attr : String) : Except String α :=
  .error ("AttributeError: 'dict' object has no attribute '" ++ attr ++ "'")

/-- `crud_event.create_event(db, event)` (`app/crud/crud_event.py` lines
61-71): reads `event.link_id`, `event.type`, `event.event_data` by
attribute access and appends the new row.  The caller in `redirect_link`
passes a dict, so each read is a `dictGetattr`. -/
def create_event (db : DB) (event : EventDict) : Except String DB :=
  match dictGetattr Nat event "link_id" with
  | .error e => .error e
  | .ok link_id =>
      match dictGetattr String event "type" with
      | .error e => .error e
      | .ok ty =>
          match dictGetattr EventData event "event_data" with
          | .error e => .error e
          | .ok ed => .ok { db with events := db.events ++ [⟨link_id, ty, ed⟩] }

/-! ## `app/api/redirect.py` — the `redirect_link` endpoint -/

/-- The `link_data` body of the `requires_password` response
(`app/api/redirect.py` lines 119-127). -/
structure PwRequiredData where
  short_code : String
  domain : String
  title : Option String
  has_password : Bool
deriving Repr, DecidableEq

/-- The typed outcome of one resolution attempt.  `resolved` covers both
wire formats of a successful resolution (the JSON body and the 302
redirect carry the same `target_url`; which is produced depends only on
the `Accept` header / method, not on the stored state). -/
inductive Outcome where
  | notFound (detail : String)
  | passwordRequired (data : PwRequiredData)
  | badRequest (detail : String)
  | resolved (target_url : String)
deriving Repr, DecidableEq

/-- `redirect_link` (`app/api/redirect.py` lines 91-191), parametrised by
the event recorder so that the `try/except` around event recording
(lines 130-147) is explicit: the recorder's failure is logged and
swallowed, resolution continues on the unchanged state.

Steps, in source order:
1. `get_link_or_raise`: lookup via
   `get_link_by_domain_and_short_code` (which already filters
   `is_active`), raising `NotFoundException` when absent; then the
   endpoint's own `is_active` re-check.
2. Password gate: when `is_password_protected(link_data)` and the supplied
   password is falsy (`None` or empty) or fails `verify_password`,
   return the `requires_password` response.
3. Event recording attempt inside `try/except`.
4. `target_url = link_data.get("url")`; falsy (`None`/empty) →
   `BadRequestException("Invalid link configuration")`; otherwise the
   resolved response.

There is no expiry check: `LinkProcessor.is_expired` is never invoked on
this path, and neither is `LinkProcessor.process_link_redirect` or
`LinkProcessor.should_track`. -/
def redirect_linkWith (recorder : DB → EventDict → Except String DB)
    (db : DB) (short_code domain : String) (password : Option String)
    (ip user_agent referrer : Option String) (now : Int) : DB × Outcome :=
  match get_link_by_domain_and_short_code db short_code domain with
  | none => (db, .notFound "Link not found or inactive")
  | some db_link =>
      if !db_link.is_active then
        (db, .notFound "This link is no longer active")
      else
        let link_data := db_link.link_data
        if is_password_protected link_data
            && !(match password with
                 | none => false
                 | some p => !p.isEmpty && verify_password link_data p) then
          (db, .passwordRequired ⟨short_code, domain, link_data.title, true⟩)
        else
          let event_data : EventData :=
            { ip := ip, user_agent := user_agent, referrer := referrer,
              timestamp := now }
          let db' :=
            match recorder db ⟨db_link.id, "CLICK", event_data⟩ with
            | .ok db2 => db2
            | .error _ => db
          match link_data.url with
          | none => (db', .badRequest "Invalid link configuration")
          | some target_url =>
              if target_url.isEmpty then
                (db', .badRequest "Invalid link configuration")
              else
                (db', .resolved target_url)

/-- The endpoint as shipped: the recorder is `crud_event.create_event`
applied to the dict literal built at the call site. -/
def redirect_link (db : DB) (short_code domain : String)
    (password : Option String) (ip user_agent referrer : Option String)
    (now : Int) : DB × Outcome :=
  redirect_linkWith create_event db short_code domain password
    ip user_agent referrer now

/-! ## Modelled from the spec (for comparison against the source) -/

/-- Modelled from the spec: the character set `[A-Za-z0-9_-]` that §3 of the
spec claims short codes are drawn from.  (The source's validation layer in
`app/core/short_code.py` uses `SAFE_ALPHABET` instead; this definition
exists only to compare the spec's words with the source.) -/
def spec_allowed_char (c : Char) : Bool :=
  c.isAlphanum || c == '_' || c == '-'

/-! ## Concrete sample states used by closed evaluations -/

/-- An expired simple link: `expires_at` 2020-01-01T00:00:00Z (epoch
1577836800), no password. -/
def c1_link : Link :=
  { id := 1, domain_id := "qill.me", short_code := "abc", is_active := true,
    link_data := { url := some "https://a.example",
                   expires_at := some 1577836800 } }

/-- An expired, password-protected simple link (password `"pw"`). -/
def c1_link2 : Link :=
  { id := 2, domain_id := "qill.me", short_code := "defg", is_active := true,
    link_data := { url := some "https://b.example",
                   expires_at := some 1577836800,
                   password := some "pw" } }

/-- State holding the two expired links. -/
def c1_db : DB := { links := [c1_link, c1_link2], events := [] }

/-- A resolution instant well after the links' expiry:
2026-01-01T00:00:00Z. -/
def c1_now : Int := 1767225600

/-- An active simple link whose payload has no `track` key (tracking
defaults to enabled). -/
def c5_link : Link :=
  { id := 5, domain_id := "d.example", short_code := "c5code",
    is_active := true,
    link_data := { url := some "https://x.example" } }

/-- State holding `c5_link` and no events. -/
def c5_db : DB := { links := [c5_link], events := [] }

/-- A click event referencing link 9. -/
def c9_event : Event := { link_id := 9, type := "CLICK", event_data := {} }

/-- An active simple link with id 9. -/
def c9_link : Link :=
  { id := 9, domain_id := "d.example", short_code := "c9code",
    is_active := true,
    link_data := { url := some "https://y.example" } }

/-- State holding `c9_link` together with a click event that references
it. -/
def c9_db : DB := { links := [c9_link], events := [c9_event] }

/-! ## Claims -/

/-- C1: the spec claims a link with `expires_at` in the past always
resolves to `Expired`, never to the destination, regardless of password
correctness, the expiry check preceding variant dispatch.  The code has no
such check: `LinkProcessor.is_expired` classifies both sample payloads as
expired (so the helper agrees with the spec's intent), yet `redirect_link`
returns the destination URL for both — without a password and with the
correct password — because the endpoint never consults `is_expired`. -/
theorem c1_expired_link_resolves_to_destination :
    is_expired c1_now c1_link.link_data = true
    ∧ is_expired c1_now c1_link2.link_data = true
    ∧ verify_password c1_link2.link_data "pw" = true
    ∧ redirect_link c1_db "abc" "qill.me" none none none none c1_now
        = (c1_db, .resolved "https://a.example")
    ∧ redirect_link c1_db "defg" "qill.me" (some "pw") none none none c1_now
        = (c1_db, .resolved "https://b.example") := by
  decide

/-- C4: the spec claims `generate_unique` checks candidates against the
registry's codes scoped to the domain and returns the first non-colliding
candidate (or `None` on exhaustion).  The code's loop body calls
`crud_link.get_link_by_short_code`, a function `app/crud/crud_link.py`
does not define — and takes no domain argument at all — so every call
with at least one attempt raises `AttributeError` before any collision
check happens. -/
theorem c4_generate_unique_short_code_raises (gen : Nat → String)
    (max_attempts : Nat) (h : max_attempts ≠ 0) :
    generate_unique_short_code gen max_attempts =
      .error "AttributeError: module 'app.crud.crud_link' has no attribute 'get_link_by_short_code'" := by
  cases max_attempts with
  | zero => exact absurd rfl h
  | succ m => rfl

/-- Witness for C4's theorem at the default `max_attempts = 10`. -/
theorem c4_generate_unique_short_code_raises_witness :
    generate_unique_short_code (fun _ => "abc234") 10 =
      .error "AttributeError: module 'app.crud.crud_link' has no attribute 'get_link_by_short_code'" :=
  c4_generate_unique_short_code_raises (fun _ => "abc234") 10 (by decide)

/-- C5: the spec claims a click event is recorded iff the payload's
`track` flag is true (absent defaulting to true).  On the sample link
tracking is enabled (`should_track` is true), the resolution succeeds,
yet the state after resolution holds no event: `redirect_link` never
consults `should_track`, and the recording attempt itself always fails
because `crud_event.create_event` reads `event.link_id` by attribute
access while the endpoint passes a plain dict. -/
theorem c5_track_enabled_but_no_event_recorded :
    should_track c5_link.link_data = true
    ∧ redirect_link c5_db "c5code" "d.example" none none none none 0
        = (c5_db, .resolved "https://x.example")
    ∧ (redirect_link c5_db "c5code" "d.example" none none none none 0).1.events
        = []
    ∧ create_event c5_db ⟨5, "CLICK", {}⟩
        = .error "AttributeError: 'dict' object has no attribute 'link_id'" := by
  decide

/-- C6 counterexample: the spec claims `is_valid` accepts exactly the
codes whose characters lie in `[A-Za-z0-9_-]` and whose length is within
the maximum.  The code `"a_b"` satisfies both conditions, yet
`is_valid_short_code` rejects it (`SAFE_ALPHABET` contains neither `_`
nor `-`). -/
theorem c6_underscore_rejected :
    is_valid_short_code "a_b" = false
    ∧ "a_b".data.all spec_allowed_char = true
    ∧ "a_b".length ≤ MAX_SHORT_CODE_LENGTH := by
  decide

/-- C7 counterexample: the spec claims a user agent containing
`android` resolves to `rules.android` when present and otherwise to
`rules.else`.  For the user agent `"Android iPad"` with rules lacking an
`android` key but holding an `iphone` key, the code returns the iphone
rule, not `rules.else`. -/
theorem c7_android_falls_through_to_iphone :
    process_link_redirect 0
        { type := some "complex",
          rules := some [("iphone", "https://i.example"),
                         ("else", "https://e.example")] }
        (some { user_agent := some "Android iPad" })
      = .ok "https://i.example"
    ∧ List.lookup "else"
        [("iphone", "https://i.example"), ("else", "https://e.example")]
      = some "https://e.example"
    ∧ ("https://i.example" : String) ≠ "https://e.example" := by
  decide

/-- C9: the spec claims deleting a link succeeds and cascade-removes its
dependent click events.  The code configures no cascade, so deleting
`c9_link` — which has a dependent click event — raises `IntegrityError`
(the ORM nulls the event's NOT NULL `link_id` at flush): the link is not
deleted and its events are never removed.  Only a link without dependent
events can be deleted at all, in which case the link row alone goes. -/
theorem c9_delete_with_dependent_event_raises :
    delete_link c9_db 9
      = .error "IntegrityError: NOT NULL constraint failed: events.link_id"
    ∧ c9_event.link_id = c9_link.id
    ∧ delete_link { links := [c9_link], events := [] } 9
        = .ok ({ links := [], events := [] }, some c9_link)
    ∧ get_link_by_domain_and_short_code { links := [], events := [] }
        "c9code" "d.example" = none := by
  decide

/-- Every residue `i < N` is hit by `(t + k) % N` for some `k < N`. -/
theorem add_mod_cover (t i N : Nat) (hN : 0 < N) (hi : i < N) :
    ∃ k, k < N ∧ (t + k) % N = i := by
  refine ⟨(i + N - t % N) % N, Nat.mod_lt _ hN, ?_⟩
  have h1 : t % N ≤ i + N :=
    le_trans (Nat.mod_lt t hN).le (Nat.le_add_left N i)
  calc (t + (i + N - t % N) % N) % N
      = (t + (i + N - t % N)) % N := by rw [Nat.add_mod_mod]
    _ = (t % N + (i + N - t % N)) % N := by rw [Nat.mod_add_mod]
    _ = (i + N) % N := by rw [Nat.add_sub_cancel' h1]
    _ = i % N := Nat.add_mod_right i N
    _ = i := Nat.mod_eq_of_lt hi

/-- C2: for a `round_robin` payload with a non-empty url list, the
destination is `urls[int(time.time()) % len(urls)]`; resolving at the
second-aligned instants `t` and `t + N` gives the same URL; and across
the instants `t .. t + N - 1` every one of the urls is returned at least
once. -/
theorem c2_round_robin_rotation (t : Nat) (ri : Option RequestInfo)
    (d : LinkData) (urls : List String)
    (htype : d.type = some "round_robin") (hu : d.urls = some urls)
    (hne : urls ≠ []) :
    (∀ h : t % urls.length < urls.length,
        process_link_redirect t d ri = .ok (urls.get ⟨t % urls.length, h⟩))
    ∧ process_link_redirect (t + urls.length) d ri
        = process_link_redirect t d ri
    ∧ (∀ i (hi : i < urls.length), ∃ k, k < urls.length ∧
        process_link_redirect (t + k) d ri = .ok (urls.get ⟨i, hi⟩)) := by
  have hlen : 0 < urls.length := List.length_pos.mpr hne
  have hrr : ∀ s : Nat, process_link_redirect s d ri
      = .ok (urls.get ⟨s % urls.length, Nat.mod_lt s hlen⟩) := by
    intro s
    cases urls with
    | nil => exact absurd rfl hne
    | cons u us =>
        simp [process_link_redirect, htype, _process_round_robin_link, hu]
  refine ⟨fun h => hrr t, ?_, ?_⟩
  · rw [hrr (t + urls.length), hrr t]
    exact congrArg Except.ok
      (congrArg urls.get (Fin.ext (Nat.add_mod_right t urls.length)))
  · intro i hi
    obtain ⟨k, hk, hmod⟩ := add_mod_cover t i urls.length hlen hi
    exact ⟨k, hk, by
      rw [hrr (t + k)]
      exact congrArg Except.ok (congrArg urls.get (Fin.ext hmod))⟩

/-- Witness for C2 at the spec's own example: a two-url rotation at
epoch-seconds 10 and 12 (`12 = 10 + 2`). -/
theorem c2_round_robin_rotation_witness :
    process_link_redirect 10
        { type := some "round_robin", urls := some ["https://x", "https://y"] }
        none
      = .ok "https://x"
    ∧ process_link_redirect 12
        { type := some "round_robin", urls := some ["https://x", "https://y"] }
        none
      = process_link_redirect 10
          { type := some "round_robin", urls := some ["https://x", "https://y"] }
          none :=
  ⟨(c2_round_robin_rotation 10 none _ ["https://x", "https://y"]
      rfl rfl (by decide)).1 (by decide),
   (c2_round_robin_rotation 10 none _ ["https://x", "https://y"]
      rfl rfl (by decide)).2.1⟩

/-- C8: the outcome of a resolution attempt does not depend on the event
recorder at all — in particular a recorder that raises is logged and
swallowed, the caller still receiving the destination URL (or the
applicable typed outcome) — and a failing recorder leaves the stored
state untouched. -/
theorem c8_recording_failure_swallowed
    (rec : DB → EventDict → Except String DB)
    (hfail : ∀ db e, ∃ msg, rec db e = .error msg)
    (db : DB) (sc dom : String) (pw ip ua ref : Option String) (now : Int) :
    (redirect_linkWith rec db sc dom pw ip ua ref now).2
      = (redirect_linkWith (fun d _ => .ok d) db sc dom pw ip ua ref now).2
    ∧ (redirect_linkWith rec db sc dom pw ip ua ref now).1 = db := by
  unfold redirect_linkWith
  cases hlk : get_link_by_domain_and_short_code db sc dom with
  | none => exact ⟨rfl, rfl⟩
  | some l =>
      obtain ⟨msg, hmsg⟩ := hfail db
        ⟨l.id, "CLICK",
         { ip := ip, user_agent := ua, referrer := ref, timestamp := now }⟩
      simp only [hmsg]
      cases l.link_data.url <;> simp <;> (repeat' split) <;> rfl

/-- Witness for C8: a recorder that always raises produces the same
outcome as one that succeeds, on the unchanged state. -/
theorem c8_recording_failure_swallowed_witness :
    (redirect_linkWith (fun _ _ => .error "boom") c5_db "c5code" "d.example"
        none none none none 0).2
      = (redirect_linkWith (fun d _ => .ok d) c5_db "c5code" "d.example"
          none none none none 0).2
    ∧ (redirect_linkWith (fun _ _ => .error "boom") c5_db "c5code" "d.example"
        none none none none 0).1 = c5_db :=
  c8_recording_failure_swallowed (fun _ _ => .error "boom")
    (fun _ _ => ⟨"boom", rfl⟩) c5_db "c5code" "d.example" none none none none 0

/-- C10: a payload without a `type` key dispatches as a simple link,
returning the payload's url; a payload whose `type` is none of `simple`,
`round_robin`, `complex` raises `ValueError` instead of returning a
destination. -/
theorem c10_default_and_unknown_dispatch (t : Nat) (ri : Option RequestInfo)
    (d : LinkData) :
    (d.type = none →
        process_link_redirect t d ri = .ok (_process_simple_link d))
    ∧ (∀ u, d.type = none → d.url = some u →
        process_link_redirect t d ri = .ok u)
    ∧ (∀ tag, d.type = some tag → tag ≠ "simple" → tag ≠ "round_robin" →
        tag ≠ "complex" →
        process_link_redirect t d ri
          = .error ("Unknown link type: " ++ tag)) := by
  refine ⟨?_, ?_, ?_⟩
  · intro h
    simp [process_link_redirect, h]
  · intro u h hu
    simp [process_link_redirect, h, _process_simple_link, hu]
  · intro tag h h1 h2 h3
    simp [process_link_redirect, h, h1, h2, h3]

/-- Witness for C10: a bare-url payload resolves to its url; tag
`"weighted"` is rejected. -/
theorem c10_default_and_unknown_dispatch_witness :
    process_link_redirect 0 { url := some "https://a.example" } none
      = .ok "https://a.example"
    ∧ process_link_redirect 0 { type := some "weighted" } none
      = .error ("Unknown link type: " ++ "weighted") :=
  ⟨(c10_default_and_unknown_dispatch 0 none _).2.1 "https://a.example" rfl rfl,
   (c10_default_and_unknown_dispatch 0 none _).2.2 "weighted" rfl
     (by decide) (by decide) (by decide)⟩

/-- An active, password-protected simple link (password `"s3cret"`). -/
def c3_link : Link :=
  { id := 3, domain_id := "d.example", short_code := "c3code",
    is_active := true,
    link_data := { url := some "https://z.example",
                   password := some "s3cret" } }

/-- State holding `c3_link`. -/
def c3_db : DB := { links := [c3_link], events := [] }

/-- C3: for a link whose payload has a non-empty password, resolution
with the exactly matching password reaches the destination; with a
missing password (`None` or the falsy empty string) or a non-matching one
it returns the `requires_password` outcome; and that outcome's data is
exactly `{short_code, domain, title, has_password}` — the stored password
value is not among its fields. -/
theorem c3_password_gate (db : DB) (code domain : String) (l : Link)
    (ip ua ref : Option String) (now : Int)
    (hfind : get_link_by_domain_and_short_code db code domain = some l)
    (hprot : is_password_protected l.link_data = true) :
    (∀ p u, verify_password l.link_data p = true → l.link_data.url = some u →
        u ≠ "" →
        (redirect_link db code domain (some p) ip ua ref now).2 = .resolved u)
    ∧ (∀ pw : Option String,
        (∀ p, pw = some p → p = "" ∨ verify_password l.link_data p = false) →
        (redirect_link db code domain pw ip ua ref now).2 =
          .passwordRequired ⟨code, domain, l.link_data.title, true⟩) := by
  have hact : l.is_active = true := by
    have h := List.find?_some hfind
    simp only [Bool.and_eq_true, beq_iff_eq] at h
    exact h.2
  constructor
  · intro p u hver hurl hune
    have hpe : p.isEmpty = false := by
      cases hs : l.link_data.password with
      | none => simp [verify_password, hs] at hver
      | some s =>
          simp [is_password_protected, hs] at hprot
          simp [verify_password, hs] at hver
          subst hver
          simpa using hprot
    have hue : u.isEmpty = false := by
      cases hcase : u.isEmpty with
      | false => rfl
      | true => exact absurd ((String.isEmpty_iff u).mp hcase) hune
    unfold redirect_link redirect_linkWith
    rw [hfind]
    simp [hact, hprot, hver, hpe, hurl, hue, create_event, dictGetattr]
  · intro pw hbad
    have hemp0 : ("" : String).isEmpty = true := rfl
    unfold redirect_link redirect_linkWith
    rw [hfind]
    cases pw with
    | none => simp [hact, hprot]
    | some p =>
        rcases hbad p rfl with hemp | hver
        · simp [hact, hprot, hemp, hemp0]
        · simp [hact, hprot, hver]

/-- Witness for C3: correct password resolves, wrong and missing
passwords are challenged with a password-free data blob. -/
theorem c3_password_gate_witness :
    (redirect_link c3_db "c3code" "d.example" (some "s3cret")
        none none none 0).2 = .resolved "https://z.example"
    ∧ (redirect_link c3_db "c3code" "d.example" (some "wrong")
        none none none 0).2
      = .passwordRequired ⟨"c3code", "d.example", none, true⟩
    ∧ (redirect_link c3_db "c3code" "d.example" none
        none none none 0).2
      = .passwordRequired ⟨"c3code", "d.example", none, true⟩ :=
  ⟨(c3_password_gate c3_db "c3code" "d.example" c3_link none none none 0
      (by decide) (by decide)).1 "s3cret" "https://z.example"
      (by decide) rfl (by decide),
   (c3_password_gate c3_db "c3code" "d.example" c3_link none none none 0
      (by decide) (by decide)).2 (some "wrong")
      (by intro p hp; cases hp; exact Or.inr (by decide)),
   (c3_password_gate c3_db "c3code" "d.example" c3_link none none none 0
      (by decide) (by decide)).2 none (by intro p hp; cases hp)⟩

/-- C6 (amended): every generated code draws only from `SAFE_ALPHABET`
(ASCII letters and digits minus the ambiguous `0 O 1 l I`; no lowercase
normalization), with the requested length; and `is_valid_short_code`
accepts exactly the non-empty codes of length at most
`MAX_SHORT_CODE_LENGTH` all of whose characters lie in `SAFE_ALPHABET`. -/
theorem c6_amended_alphabet_and_validation :
    (∀ (pick : Nat → Fin SAFE_ALPHABET.data.length) (length : Nat),
        (generate_short_code pick length).length = length
        ∧ ∀ c ∈ (generate_short_code pick length).data,
            c ∈ SAFE_ALPHABET.data)
    ∧ (∀ code : String, is_valid_short_code code = true ↔
        code ≠ "" ∧ code.length ≤ MAX_SHORT_CODE_LENGTH
        ∧ ∀ c ∈ code.data, c ∈ SAFE_ALPHABET.data) := by
  constructor
  · intro pick length
    constructor
    · simp [generate_short_code]
    · intro c hc
      simp only [generate_short_code, List.mem_map, List.mem_range] at hc
      obtain ⟨i, _, rfl⟩ := hc
      exact List.get_mem _ _ _
  · intro code
    by_cases h1 : code.isEmpty
    · rw [(String.isEmpty_iff code).mp h1]
      decide
    · by_cases h2 : code.length > MAX_SHORT_CODE_LENGTH
      · simp [is_valid_short_code, h1, h2, Nat.not_le.mpr h2]
      · have h1' : code ≠ "" := fun hc =>
          h1 ((String.isEmpty_iff code).mpr hc)
        simp [is_valid_short_code, h1, h2, h1', Nat.not_lt.mp h2,
          List.all_eq_true, List.contains, List.elem_iff]

/-- Witness for C6's amended theorem. -/
theorem c6_amended_alphabet_and_validation_witness :
    is_valid_short_code "abc234" = true
    ∧ (generate_short_code (fun _ => ⟨0, by decide⟩) 6).length = 6 :=
  ⟨(c6_amended_alphabet_and_validation.2 "abc234").mpr
      ⟨by decide, by decide, by decide⟩,
   (c6_amended_alphabet_and_validation.1 (fun _ => ⟨0, by decide⟩) 6).1⟩

/-- C7 (amended): for a `rule_based` (`complex`) payload with request
info present, lowercasing the user agent: containing `android` with an
`android` rule returns that rule; when the `android` case does not apply
(no `android` in the user agent, or no such rule), a user agent
containing `iphone` or `ipad` with an `iphone` rule present returns the
iphone rule — including for user agents that also contain `android` but
have no `android` rule; when neither case applies, the `else` rule is
returned. -/
theorem c7_amended_rule_dispatch (t : Nat) (d : LinkData)
    (rules : List (String × String)) (ri : RequestInfo)
    (htype : d.type = some "complex") (hrules : d.rules = some rules) :
    (∀ a, pyIn "android" (pyLower (ri.user_agent.getD "")) = true →
        List.lookup "android" rules = some a →
        process_link_redirect t d (some ri) = .ok a)
    ∧ (∀ i, (pyIn "android" (pyLower (ri.user_agent.getD "")) = false
          ∨ List.lookup "android" rules = none) →
        (pyIn "iphone" (pyLower (ri.user_agent.getD "")) = true
          ∨ pyIn "ipad" (pyLower (ri.user_agent.getD "")) = true) →
        List.lookup "iphone" rules = some i →
        process_link_redirect t d (some ri) = .ok i)
    ∧ (∀ e, (pyIn "android" (pyLower (ri.user_agent.getD "")) = false
          ∨ List.lookup "android" rules = none) →
        ((pyIn "iphone" (pyLower (ri.user_agent.getD "")) = false
            ∧ pyIn "ipad" (pyLower (ri.user_agent.getD "")) = false)
          ∨ List.lookup "iphone" rules = none) →
        List.lookup "else" rules = some e →
        process_link_redirect t d (some ri) = .ok e) := by
  refine ⟨?_, ?_, ?_⟩
  · intro a hua hr
    simp [process_link_redirect, htype, _process_complex_link, hrules,
      hua, hr]
  · intro i hand hua hr
    rcases hand with hand | hand <;> rcases hua with hua | hua <;>
      simp [process_link_redirect, htype, _process_complex_link, hrules,
        hand, hua, hr]
  · intro e hand hua hr
    rcases hua with ⟨hua1, hua2⟩ | hua
    · rcases hand with hand | hand <;>
        simp [process_link_redirect, htype, _process_complex_link, hrules,
          hand, hua1, hua2, hr]
    · rcases hand with hand | hand <;>
        simp [process_link_redirect, htype, _process_complex_link, hrules,
          hand, hua, hr]

/-- Witness for C7's amended theorem: an `android` user agent with an
android rule, the same with only iphone/else rules, and a desktop user
agent falling back to `else`. -/
theorem c7_amended_rule_dispatch_witness :
    process_link_redirect 0
        { type := some "complex",
          rules := some [("android", "https://a.example"),
                         ("else", "https://e.example")] }
        (some { user_agent := some "Android 14" })
      = .ok "https://a.example"
    ∧ process_link_redirect 0
        { type := some "complex",
          rules := some [("iphone", "https://i.example"),
                         ("else", "https://e.example")] }
        (some { user_agent := some "iPhone OS" })
      = .ok "https://i.example"
    ∧ process_link_redirect 0
        { type := some "complex",
          rules := some [("android", "https://a.example"),
                         ("iphone", "https://i.example"),
                         ("else", "https://e.example")] }
        (some { user_agent := some "Mozilla Windows" })
      = .ok "https://e.example" :=
  ⟨(c7_amended_rule_dispatch 0 _ _ { user_agent := some "Android 14" }
      rfl rfl).1 "https://a.example" (by decide) (by decide),
   (c7_amended_rule_dispatch 0 _ _ { user_agent := some "iPhone OS" }
      rfl rfl).2.1 "https://i.example" (Or.inl (by decide)) (Or.inl (by decide))
      (by decide),
   (c7_amended_rule_dispatch 0
      { type := some "complex",
        rules := some [("android", "https://a.example"),
                       ("iphone", "https://i.example"),
                       ("else", "https://e.example")] }
      [("android", "https://a.example"), ("iphone", "https://i.example"),
       ("else", "https://e.example")]
      { user_agent := some "Mozilla Windows" }
      rfl rfl).2.2 "https://e.example" (Or.inl (by decide))
      (Or.inl (And.intro (by decide) (by decide))) (by decide)⟩

end HouseSageBackend
